import Mathlib

/-!
Verification of the batch-scraping engine in `scrap.py` (class `HybridBatchScraper`).

The engine's pure core is shallowly embedded: pandas DataFrames become
`List ListingRecord`, the JSON progress file becomes `ProgressState`,
the in-memory `self.stats` dict becomes `Stats`, and the external world
(page fetches, `random.uniform` draws, the current date and hour) is
passed in explicitly.  Fields irrelevant to the engine's decisions
(titles, locations, timestamps inside records) are kept only as far as
the engine reads them: the dedup key `url` and the representative
payload field `price`.
-/

namespace Scrap

/-- A harvested listing row.  The engine itself only ever inspects `url`
(the dedup key of `remove_duplicates`); `price` stands for the opaque
payload carried through untouched. -/
structure ListingRecord where
  url : String
  price : Int
  deriving DecidableEq

/-- `self.stats` of `HybridBatchScraper.__init__` (lines 76-83), minus the
wall-clock `session_start_time`.  `avg_response_time` is exact rational
arithmetic in place of Python floats. -/
structure Stats where
  total_pages_scraped : Nat
  successful_pages : Nat
  failed_pages : Nat
  total_listings : Nat
  avg_response_time : ℚ
  deriving DecidableEq

/-- One entry of `progress['completed_batches']` as appended by
`run_batch` (lines 546-555). -/
structure BatchCompletionRecord where
  id : Nat
  name : String
  start : Nat
  «end» : Nat
  completed_at : String
  date : String
  pages_scraped : Nat
  listings_found : Nat
  deriving DecidableEq

/-- The persisted progress record (`batch_progress.json`).
`next_session_time = none` models the key being absent. -/
structure ProgressState where
  current_batch_id : Nat
  completed_batches : List BatchCompletionRecord
  daily_pages_scraped : Nat
  last_scrape_date : String
  next_session_time : Option String
  session_stats : Stats
  deriving DecidableEq

/-- A batch definition from `self.batches` (lines 71-73). -/
structure Batch where
  id : Nat
  start : Nat
  «end» : Nat
  name : String
  deriving DecidableEq

/-- The single configured batch `{'id': 1, 'start': 51, 'end': 60, ...}`. -/
def batches : List Batch :=
  [{ id := 1, start := 51, «end» := 60, name := "Batch 1 (51-60)" }]

/-- `self.continuation_rules` (lines 60-68). -/
structure ContinuationRules where
  same_day_max_batches : Nat
  min_break_minutes : ℚ
  max_break_minutes : ℚ
  daily_page_limit : Nat
  success_threshold : ℚ
  peak_hours : Nat × Nat
  off_peak_hours : Nat × Nat
  deriving DecidableEq

/-- The shipped configuration values of `self.continuation_rules`. -/
def continuation_rules : ContinuationRules :=
  { same_day_max_batches := 1
    min_break_minutes := 15
    max_break_minutes := 45
    daily_page_limit := 50
    success_threshold := 90
    peak_hours := (9, 17)
    off_peak_hours := (18, 23) }

/-- The zeroed session stats a fresh process starts with. -/
def stats_init : Stats :=
  { total_pages_scraped := 0
    successful_pages := 0
    failed_pages := 0
    total_listings := 0
    avg_response_time := 0 }

/-! ## DatasetStore: `load_existing_data` / `remove_duplicates` / `save_batch_data` -/

/-- `u` occurs as the `url` of some record in `l`
(pandas `l['url'].isin([u])` viewed from the element side). -/
def urlMem (u : String) (l : List ListingRecord) : Bool :=
  l.any fun r => r.url == u

/-- `combined_df.drop_duplicates(subset=['url'], keep='last')` (line 366):
a row is kept iff no later row carries the same `url`; kept rows stay in
their original order, so each `url` is represented by its last occurrence. -/
def dropDuplicatesKeepLast : List ListingRecord → List ListingRecord
  | [] => []
  | r :: rest =>
    if urlMem r.url rest then dropDuplicatesKeepLast rest
    else r :: dropDuplicatesKeepLast rest

/-- `remove_duplicates(new_df, existing_df)` (lines 360-370): concatenate
existing and new, drop duplicate urls keeping the last occurrence, then keep
only rows whose `url` is NOT already present in the existing store
(`~deduplicated_df['url'].isin(existing_df['url'])`). -/
def remove_duplicates (new_df existing_df : List ListingRecord) : List ListingRecord :=
  if existing_df = [] then new_df
  else
    let combined_df := existing_df ++ new_df
    let deduplicated_df := dropDuplicatesKeepLast combined_df
    deduplicated_df.filter fun r => !urlMem r.url existing_df

/-- `save_batch_data` (lines 372-393) acting on the durable CSV, with the
store contents passed in for `load_existing_data`: no-op on an empty batch,
otherwise append `remove_duplicates(new, existing)` to the file (mode 'w'
when the store was empty, mode 'a' otherwise — both are list append). -/
def save_batch_data (listings store : List ListingRecord) : List ListingRecord :=
  if listings = [] then store
  else
    let existing_df := store
    let unique_new_df := remove_duplicates listings existing_df
    if unique_new_df = [] then store
    else if existing_df = [] then unique_new_df
    else existing_df ++ unique_new_df

/-! ## RiskAssessor: `calculate_success_rate` / `assess_risk_level` -/

/-- `calculate_success_rate` (lines 395-400). -/
def calculate_success_rate (stats : Stats) : ℚ :=
  let total_pages := stats.successful_pages + stats.failed_pages
  if total_pages = 0 then 100
  else ((stats.successful_pages : ℚ) / (total_pages : ℚ)) * 100

/-- `assess_risk_level` (lines 402-412). -/
def assess_risk_level (stats : Stats) : String :=
  let success_rate := calculate_success_rate stats
  let avg_response_time := stats.avg_response_time
  if success_rate ≥ 95 ∧ avg_response_time < 3 then "LOW"
  else if success_rate ≥ 85 ∧ avg_response_time < 5 then "MEDIUM"
  else "HIGH"

/-! ## PacingPlanner: `calculate_optimal_break` -/

/-- CPython's `random.uniform(a, b) = a + (b - a) * random()`, with the
draw `random() ∈ [0, 1)` made an explicit argument `t`.  Note that for
`a > b` the result lies between `b` and `a`, not in the empty `[a, b]`. -/
def uniform (a b t : ℚ) : ℚ := a + (b - a) * t

/-- `calculate_optimal_break` (lines 420-433), with the random draw `t`
passed in. -/
def calculate_optimal_break (rules : ContinuationRules) (stats : Stats) (t : ℚ) : ℚ :=
  let base_break := rules.min_break_minutes
  let max_break := rules.max_break_minutes
  let risk_level := assess_risk_level stats
  if risk_level = "LOW" then uniform base_break (base_break + 30) t
  else if risk_level = "MEDIUM" then uniform (base_break + 30) (base_break + 60) t
  else uniform (base_break + 60) max_break t

/-! ## ProgressStore: `load_progress` / `create_initial_progress` -/

/-- The observable state of `batch_progress.json` at load time: absent,
present but failing `open`/`json.load` (an empty file included), or a
parseable progress record. -/
inductive ProgressFile where
  | missing
  | unreadable
  | valid (p : ProgressState)
  deriving DecidableEq

/-- `create_initial_progress` (lines 105-115): the default record, stamped
with today's date and the current session stats.  The `next_session_time`
key is absent (`none`); the record is also persisted via `save_progress`. -/
def create_initial_progress (today : String) (stats : Stats) : ProgressState :=
  { current_batch_id := 1
    completed_batches := []
    daily_pages_scraped := 0
    last_scrape_date := today
    next_session_time := none
    session_stats := stats }

/-- `load_progress` (lines 88-103): parse the file when present and
readable; on a missing file or any read/parse exception fall back to
`create_initial_progress` (which also writes the file).  Returns the
loaded state together with the file contents after the call. -/
def load_progress (file : ProgressFile) (today : String) (stats : Stats) :
    ProgressState × ProgressFile :=
  match file with
  | .valid p => (p, .valid p)
  | .missing => (create_initial_progress today stats,
                 .valid (create_initial_progress today stats))
  | .unreadable => (create_initial_progress today stats,
                    .valid (create_initial_progress today stats))

/-! ## BatchRunner: `scrape_page` / `run_batch` -/

/-- What one call to `scrape_page` observes of the outside world: either an
exception somewhere in navigation/parsing, or a parsed page with its
extracted records and the measured response time. -/
inductive FetchOutcome where
  | failure
  | success (records : List ListingRecord) (latency : ℚ)
  deriving DecidableEq

/-- `scrape_page` (lines 242-305) as a state transformer on `Stats`:
returns the boolean result, the updated stats, and the records to append
to the batch buffer.  An exception or an empty `searchResultsItem` set both
increment `failed_pages` and return `False`; a non-empty set increments
`successful_pages`/`total_listings` and folds the latency into the running
mean `avg' = (avg * (n - 1) + latest) / n` with `n` the incremented
success count. -/
def scrape_page (outcome : FetchOutcome) (stats : Stats) :
    Bool × Stats × List ListingRecord :=
  match outcome with
  | .failure => (false, { stats with failed_pages := stats.failed_pages + 1 }, [])
  | .success records latency =>
    if records = [] then
      (false, { stats with failed_pages := stats.failed_pages + 1 }, [])
    else
      let n := stats.successful_pages + 1
      (true,
       { stats with
         successful_pages := n
         total_listings := stats.total_listings + records.length
         avg_response_time :=
           (stats.avg_response_time * ((n : ℚ) - 1) + latency) / (n : ℚ) },
       records)

/-- The page loop of `run_batch` (lines 530-539): scrape each page in
order, accumulating stats and the batch listing buffer; a failed page is
only logged and the loop proceeds to the next page. -/
def scrape_pages (fetch : Nat → FetchOutcome) :
    List Nat → Stats → List ListingRecord → Stats × List ListingRecord
  | [], stats, listings => (stats, listings)
  | page :: rest, stats, listings =>
    let result := scrape_page (fetch page) stats
    scrape_pages fetch rest result.2.1 (listings ++ result.2.2)

/-- Python's `range(batch_info['start'], batch_info['end'] + 1)`. -/
def batch_pages (batch_info : Batch) : List Nat :=
  List.range' batch_info.start (batch_info.«end» + 1 - batch_info.start)

/-- `run_batch` (lines 522-564), with the fetch outcomes, today's date and
the completion timestamp passed in: resets the listing buffer, scrapes
every page of `range(start, end + 1)`, saves the batch into the dataset
store, appends a completion record (whose `pages_scraped` is
`len(range(start, end + 1))`), adds that same page count to
`daily_pages_scraped`, and advances `current_batch_id` to `id + 1`.
Returns (final session stats, dataset store, persisted progress). -/
def run_batch (fetch : Nat → FetchOutcome) (today now : String)
    (batch_info : Batch) (stats0 : Stats) (store : List ListingRecord)
    (progress : ProgressState) :
    Stats × List ListingRecord × ProgressState :=
  let scraped := scrape_pages fetch (batch_pages batch_info) stats0 []
  let stats := scraped.1
  let listings := scraped.2
  let store' := save_batch_data listings store
  let completion : BatchCompletionRecord :=
    { id := batch_info.id
      name := batch_info.name
      start := batch_info.start
      «end» := batch_info.«end»
      completed_at := now
      date := today
      pages_scraped := (batch_pages batch_info).length
      listings_found := listings.length }
  let progress' : ProgressState :=
    { progress with
      completed_batches := progress.completed_batches ++ [completion]
      daily_pages_scraped := progress.daily_pages_scraped + (batch_pages batch_info).length
      current_batch_id := batch_info.id + 1
      session_stats := stats }
  (stats, store', progress')

/-! ## ContinuationDecider: `decide_continuation` -/

/-- `decide_continuation` (lines 435-468), with the loaded progress, the
current date and the current hour passed in.  `schedule_tomorrow` returns
the decision string "TOMORROW" (the spec's WAIT_FOR_TOMORROW) and
`continue_with_break` returns "CONTINUE".  The four guards are evaluated
in source order: daily page limit, same-day batch count, success-rate
threshold, evening cutoff at hour 18. -/
def decide_continuation (rules : ContinuationRules) (progress : ProgressState)
    (stats : Stats) (today : String) (current_hour : Nat) : String :=
  if progress.daily_pages_scraped ≥ rules.daily_page_limit then "TOMORROW"
  else if (progress.completed_batches.filter fun b => b.date == today).length ≥
      rules.same_day_max_batches then "TOMORROW"
  else if calculate_success_rate stats < rules.success_threshold then "TOMORROW"
  else if current_hour ≥ 18 then "TOMORROW"
  else "CONTINUE"

/-! ## Concrete scenario data -/

/-- A fetcher whose every page raises. -/
def fetch_fail (_ : Nat) : FetchOutcome := .failure

/-- The fetcher of spec Scenario B: page 55 fails, every other page yields
one record with one second of latency. -/
def fetch_scenario_b (p : Nat) : FetchOutcome :=
  if p = 55 then .failure else .success [⟨"u", (p : Int)⟩] 1

/-- The configured batch `{id: 1, start: 51, end: 60}` of Scenario B. -/
def scenario_batch : Batch :=
  { id := 1, start := 51, «end» := 60, name := "Batch 1 (51-60)" }

/-- A fresh progress record dated 2026-10-12. -/
def progress_fresh : ProgressState :=
  create_initial_progress "2026-10-12" stats_init

/-- A persisted progress record whose `last_scrape_date` is the previous
calendar day and which already counts 10 pages for that day. -/
def progress_yesterday : ProgressState :=
  { current_batch_id := 1
    completed_batches := []
    daily_pages_scraped := 10
    last_scrape_date := "2026-10-11"
    next_session_time := none
    session_stats := stats_init }

/-- Scenario C's progress: `daily_pages_scraped = 50` at the configured
`daily_page_limit = 50`. -/
def progress_scenario_c : ProgressState :=
  { progress_fresh with daily_pages_scraped := 50 }

/-- A session with a single failed page and no successes: success rate 0,
assessed risk HIGH. -/
def stats_one_failure : Stats :=
  { stats_init with failed_pages := 1 }

/-! ## Helper lemmas about the dataset merge -/

theorem urlMem_append (u : String) (a b : List ListingRecord) :
    urlMem u (a ++ b) = (urlMem u a || urlMem u b) :=
  List.any_append

theorem urlMem_iff_exists (u : String) (l : List ListingRecord) :
    urlMem u l = true ↔ ∃ r ∈ l, r.url = u := by
  simp [urlMem]

theorem mem_of_mem_dropDuplicatesKeepLast {r : ListingRecord} :
    ∀ {l : List ListingRecord}, r ∈ dropDuplicatesKeepLast l → r ∈ l := by
  intro l
  induction l with
  | nil => intro h; exact absurd h (List.not_mem_nil r)
  | cons a rest ih =>
    intro h
    unfold dropDuplicatesKeepLast at h
    by_cases ha : urlMem a.url rest = true
    · rw [if_pos ha] at h
      exact List.mem_cons_of_mem a (ih h)
    · rw [if_neg ha] at h
      rcases List.mem_cons.mp h with h | h
      · exact h ▸ List.mem_cons_self a rest
      · exact List.mem_cons_of_mem a (ih h)

theorem urlMem_dropDuplicatesKeepLast (u : String) :
    ∀ l : List ListingRecord, urlMem u (dropDuplicatesKeepLast l) = urlMem u l := by
  intro l
  induction l with
  | nil => rfl
  | cons a rest ih =>
    unfold dropDuplicatesKeepLast
    by_cases ha : urlMem a.url rest = true
    · rw [if_pos ha, ih]
      by_cases hu : a.url = u
      · subst hu
        simp [urlMem, ha]
        exact (List.any_eq_true.mp ha).imp fun r hr => ⟨hr.1, by simpa using hr.2⟩
      · simp [urlMem, List.any_cons, show (a.url == u) = false from beq_eq_false_iff_ne.mpr hu]
    · rw [if_neg ha]
      simp [urlMem, List.any_cons] at ih ⊢
      rw [show (dropDuplicatesKeepLast rest).any (fun r => r.url == u) =
          rest.any (fun r => r.url == u) from ih]

/-- Every url of a non-trivially-merged batch ends up present in the store. -/
theorem urlMem_save_batch_data (R S : List ListingRecord) (u : String)
    (hu : urlMem u R = true) : urlMem u (save_batch_data R S) = true := by
  have hR : R ≠ [] := by
    intro h; subst h; simp [urlMem] at hu
  by_cases hS : S = []
  · subst hS
    have hsave : save_batch_data R [] = R := by
      simp [save_batch_data, remove_duplicates, hR]
    rw [hsave]; exact hu
  · -- the merged unique rows are the deduped rows with urls new to S
    have key : urlMem u S = true ∨ urlMem u (remove_duplicates R S) = true := by
      by_cases huS : urlMem u S = true
      · exact Or.inl huS
      · refine Or.inr ?_
        have hmem : urlMem u (S ++ R) = true := by
          rcases (urlMem_iff_exists u R).mp hu with ⟨r, hr, hru⟩
          exact (urlMem_iff_exists u _).mpr ⟨r, List.mem_append_right S hr, hru⟩
        have hd : urlMem u (dropDuplicatesKeepLast (S ++ R)) = true := by
          rw [urlMem_dropDuplicatesKeepLast]; exact hmem
        rcases (urlMem_iff_exists u _).mp hd with ⟨r, hr, hru⟩
        unfold remove_duplicates
        rw [if_neg hS]
        refine (urlMem_iff_exists u _).mpr ⟨r, ?_, hru⟩
        refine List.mem_filter.mpr ⟨hr, ?_⟩
        rw [hru]
        cases hb : urlMem u S
        · rfl
        · exact absurd hb huS
    rcases key with h | h
    · by_cases hU : remove_duplicates R S = []
      · simp [save_batch_data, hR, hU, h]
      · simp [save_batch_data, hR, hU, hS, urlMem_append, h]
    · have hU : remove_duplicates R S ≠ [] := by
        intro hc; rw [hc] at h; simp [urlMem] at h
      simp [save_batch_data, hR, hU, hS, urlMem_append, h]

/-- Merging a non-empty batch never empties the store. -/
theorem save_batch_data_ne_nil (R S : List ListingRecord) (hR : R ≠ []) :
    save_batch_data R S ≠ [] := by
  intro hcontra
  rcases List.exists_mem_of_ne_nil R hR with ⟨r, hr⟩
  have := urlMem_save_batch_data R S r.url
    ((urlMem_iff_exists _ _).mpr ⟨r, hr, rfl⟩)
  rw [hcontra] at this
  simp [urlMem] at this

/-- A merge whose unique-new row set is empty leaves the store unchanged. -/
theorem save_batch_data_eq_of_remove_nil (R S : List ListingRecord)
    (hR : R ≠ []) (h : remove_duplicates R S = []) :
    save_batch_data R S = S := by
  simp [save_batch_data, hR, h]

/-- Every page outcome adds exactly one to `successful_pages + failed_pages`. -/
theorem scrape_page_total (o : FetchOutcome) (stats : Stats) :
    (scrape_page o stats).2.1.successful_pages + (scrape_page o stats).2.1.failed_pages =
      stats.successful_pages + stats.failed_pages + 1 := by
  cases o with
  | failure => simp [scrape_page]; omega
  | success records latency =>
    by_cases hrec : records = []
    · simp [scrape_page, hrec]; omega
    · simp [scrape_page, hrec]; omega

/-! ## The claims -/

/-- Claim C1, counterexample.  The spec's Scenario D asserts keep-last
dedup: after merging `[{url:"a",price:100}]` and then `[{url:"a",price:120}]`
the store should hold the price-120 record.  The code instead filters out
every new row whose `url` already occurs in the store
(`~isin(existing_df['url'])`) and only ever appends, so the second merge is
a no-op and the store still holds the price-100 record. -/
theorem C1_counterexample :
    save_batch_data [⟨"a", 120⟩] (save_batch_data [⟨"a", 100⟩] []) =
      [{ url := "a", price := 100 }] ∧
    ({ url := "a", price := 100 } : ListingRecord) ≠ { url := "a", price := 120 } := by
  decide

/-- Claim C1, amended: dataset merge uses keep-FIRST conflict resolution.
For every store and batch, the records stored under a `url` already present
in the store are exactly the store's own records for that `url`: the new
batch's version is dropped, never replaces the stored one.  Scenario D thus
ends with one record for `url:"a"` carrying price 100. -/
theorem C1_keep_first (S R : List ListingRecord) (u : String)
    (h : urlMem u S = true) :
    (save_batch_data R S).filter (fun r => r.url == u) =
      S.filter (fun r => r.url == u) := by
  have hS : S ≠ [] := by
    intro hc; subst hc; simp [urlMem] at h
  by_cases hR : R = []
  · simp [save_batch_data, hR]
  · by_cases hU : remove_duplicates R S = []
    · simp [save_batch_data, hR, hU]
    · have hstep : save_batch_data R S = S ++ remove_duplicates R S := by
        simp [save_batch_data, hR, hU, hS]
      rw [hstep, List.filter_append]
      have hnil : (remove_duplicates R S).filter (fun r => r.url == u) = [] := by
        rw [List.filter_eq_nil_iff]
        intro r hr
        unfold remove_duplicates at hr
        rw [if_neg hS] at hr
        have hkeep := (List.mem_filter.mp hr).2
        intro hru
        rw [show r.url = u from by simpa using hru, h] at hkeep
        simp at hkeep
      rw [hnil, List.append_nil]

/-- Claim C1, witness for the amended theorem at Scenario D's inputs. -/
theorem C1_keep_first_witness :
    (save_batch_data [⟨"a", 120⟩] [⟨"a", 100⟩]).filter
        (fun r => r.url == "a") =
      ([⟨"a", 100⟩] : List ListingRecord).filter (fun r => r.url == "a") :=
  C1_keep_first [⟨"a", 100⟩] [⟨"a", 120⟩] "a" (by decide)

/-- Claim C2: the spec requires `daily_pages_scraped` to reset to 0 before
a batch run whenever `last_scrape_date` is a previous calendar day.  The
code never reads `last_scrape_date` and never resets the counter: running
a 5-page batch on 2026-10-12 over a progress record dated 2026-10-11 with
10 pages already counted yields 15, where the spec demands 5. -/
theorem C2_no_daily_reset :
    progress_yesterday.last_scrape_date ≠ "2026-10-12" ∧
    progress_yesterday.daily_pages_scraped = 10 ∧
    (run_batch fetch_fail "2026-10-12" "2026-10-12 09:00:00"
        { id := 1, start := 1, «end» := 5, name := "batch" }
        stats_init [] progress_yesterday).2.2.daily_pages_scraped = 15 := by
  decide

/-- Claim C4, counterexample.  The spec says a successful fetch with an
empty record sequence is a soft warning, not a page failure.  The code's
`scrape_page` increments `failed_pages` and returns `False` on an empty
`searchResultsItem` set, and the page drags the success rate down
(here from 100 to 0). -/
theorem C4_counterexample :
    (scrape_page (.success [] 1) stats_init).2.1.failed_pages =
      stats_init.failed_pages + 1 ∧
    (scrape_page (.success [] 1) stats_init).1 = false ∧
    calculate_success_rate (scrape_page (.success [] 1) stats_init).2.1 = 0 ∧
    calculate_success_rate stats_init = 100 := by
  refine ⟨rfl, rfl, ?_, ?_⟩ <;>
    norm_num [scrape_page, calculate_success_rate, stats_init]

/-- Claim C4, amended: a successful fetch returning an empty record
sequence IS treated as a page failure — `failed_pages` is incremented, the
result is `False`, and the page counts against the success rate exactly
like a fetch error. -/
theorem C4_empty_page_is_failure (stats : Stats) (latency : ℚ) :
    scrape_page (.success [] latency) stats =
      (false, { stats with failed_pages := stats.failed_pages + 1 }, []) :=
  rfl

/-- Claim C5: risk assessment is the pure function LOW iff
`successRate ≥ 95 ∧ avgResponseTime < 3`, otherwise MEDIUM iff
`successRate ≥ 85 ∧ avgResponseTime < 5`, otherwise HIGH, where
`successRate = 100·successful/(successful+failed)` and is 100 on an
empty denominator. -/
theorem C5_risk_assessment (stats : Stats) :
    calculate_success_rate stats =
      (if stats.successful_pages + stats.failed_pages = 0 then (100 : ℚ)
       else 100 * stats.successful_pages /
         (stats.successful_pages + stats.failed_pages)) ∧
    (assess_risk_level stats = "LOW" ↔
      95 ≤ calculate_success_rate stats ∧ stats.avg_response_time < 3) ∧
    (assess_risk_level stats = "MEDIUM" ↔
      ¬(95 ≤ calculate_success_rate stats ∧ stats.avg_response_time < 3) ∧
      (85 ≤ calculate_success_rate stats ∧ stats.avg_response_time < 5)) ∧
    (assess_risk_level stats = "HIGH" ↔
      ¬(95 ≤ calculate_success_rate stats ∧ stats.avg_response_time < 3) ∧
      ¬(85 ≤ calculate_success_rate stats ∧ stats.avg_response_time < 5)) := by
  refine ⟨?_, ?_, ?_, ?_⟩
  · simp only [calculate_success_rate]
    split_ifs
    · rfl
    · push_cast
      ring
  all_goals
    simp only [assess_risk_level]
    split_ifs with h1 h2 <;> simp_all [ge_iff_le]

/-- Claim C8: progress load never propagates a failure.  A missing file
yields the default state (batch id 1, zero daily pages, no completed
batches) and persists it; an unreadable/unparseable file yields that same
freshly initialized default state. -/
theorem C8_load_never_fails (today : String) (stats : Stats) :
    load_progress .missing today stats =
      (create_initial_progress today stats,
       .valid (create_initial_progress today stats)) ∧
    (load_progress .unreadable today stats).1 =
      create_initial_progress today stats ∧
    (create_initial_progress today stats).current_batch_id = 1 ∧
    (create_initial_progress today stats).daily_pages_scraped = 0 ∧
    (create_initial_progress today stats).completed_batches = [] :=
  ⟨rfl, rfl, rfl, rfl, rfl⟩

/-- Claim C3: the continuation decision is the ordered guard chain
daily-page-limit → same-day-batch-limit → success-threshold →
hour-of-day cutoff, the first tripping guard fixing the outcome with the
later guards unevaluated (the decision is independent of every input read
only by a later guard); in particular `daily_pages_scraped ≥
daily_page_limit` forces "TOMORROW" for every stats value and hour. -/
theorem C3_guard_chain (rules : ContinuationRules) (progress : ProgressState)
    (stats : Stats) (today : String) (current_hour : Nat) :
    (progress.daily_pages_scraped ≥ rules.daily_page_limit →
      decide_continuation rules progress stats today current_hour = "TOMORROW") ∧
    (progress.daily_pages_scraped < rules.daily_page_limit →
     (progress.completed_batches.filter fun b => b.date == today).length ≥
        rules.same_day_max_batches →
      decide_continuation rules progress stats today current_hour = "TOMORROW") ∧
    (progress.daily_pages_scraped < rules.daily_page_limit →
     (progress.completed_batches.filter fun b => b.date == today).length <
        rules.same_day_max_batches →
     calculate_success_rate stats < rules.success_threshold →
      decide_continuation rules progress stats today current_hour = "TOMORROW") ∧
    (progress.daily_pages_scraped < rules.daily_page_limit →
     (progress.completed_batches.filter fun b => b.date == today).length <
        rules.same_day_max_batches →
     rules.success_threshold ≤ calculate_success_rate stats →
     current_hour ≥ 18 →
      decide_continuation rules progress stats today current_hour = "TOMORROW") ∧
    (progress.daily_pages_scraped < rules.daily_page_limit →
     (progress.completed_batches.filter fun b => b.date == today).length <
        rules.same_day_max_batches →
     rules.success_threshold ≤ calculate_success_rate stats →
     current_hour < 18 →
      decide_continuation rules progress stats today current_hour = "CONTINUE") := by
  refine ⟨?_, ?_, ?_, ?_, ?_⟩ <;>
    intros <;>
    simp_all [decide_continuation, not_le.mpr, le_of_lt]

/-- Claim C3, witness: spec Scenario C — `daily_pages_scraped = 50` at
`daily_page_limit = 50` decides "TOMORROW" even with a 0% success rate. -/
theorem C3_guard_chain_witness :
    decide_continuation continuation_rules progress_scenario_c stats_one_failure
      "2026-10-12" 10 = "TOMORROW" :=
  (C3_guard_chain continuation_rules progress_scenario_c stats_one_failure
    "2026-10-12" 10).1 (by decide)

/-- Claim C6: a single page failure never aborts a batch.  The page loop
visits exactly the pages `startPage..endPage` in strictly ascending order;
every page of a batch is accounted as a success or a failure whatever the
fetcher does; and spec Scenario B — batch `{id:1, start:51, end:60}` with a
fetcher failing only on page 55 — ends with `failed_pages = 1`,
`successful_pages = 9`, the batch completion recorded, and
`current_batch_id` advanced to 2. -/
theorem C6_failure_never_aborts :
    (∀ b : Batch, b.start ≤ b.«end» →
      (batch_pages b).Pairwise (· < ·) ∧
      ∀ p : Nat, p ∈ batch_pages b ↔ b.start ≤ p ∧ p ≤ b.«end») ∧
    (∀ (fetch : Nat → FetchOutcome) (pages : List Nat) (stats : Stats)
        (listings : List ListingRecord),
      (scrape_pages fetch pages stats listings).1.successful_pages +
        (scrape_pages fetch pages stats listings).1.failed_pages =
        stats.successful_pages + stats.failed_pages + pages.length) ∧
    ((run_batch fetch_scenario_b "2026-10-12" "2026-10-12 09:00:00" scenario_batch
        stats_init [] progress_fresh).1.failed_pages = 1 ∧
     (run_batch fetch_scenario_b "2026-10-12" "2026-10-12 09:00:00" scenario_batch
        stats_init [] progress_fresh).1.successful_pages = 9 ∧
     (run_batch fetch_scenario_b "2026-10-12" "2026-10-12 09:00:00" scenario_batch
        stats_init [] progress_fresh).2.2.current_batch_id = 2 ∧
     (run_batch fetch_scenario_b "2026-10-12" "2026-10-12 09:00:00" scenario_batch
        stats_init [] progress_fresh).2.2.completed_batches.length = 1) := by
  refine ⟨?_, ?_, ?_, ?_, ?_, ?_⟩
  · intro b hb
    constructor
    · simp only [batch_pages]
      exact List.pairwise_lt_range' b.start (b.«end» + 1 - b.start) 1 (by norm_num)
    · intro p
      simp only [batch_pages, List.mem_range'_1]
      omega
  · intro fetch pages
    induction pages with
    | nil => intro stats listings; simp [scrape_pages]
    | cons p rest ih =>
      intro stats listings
      simp only [scrape_pages, List.length_cons]
      rw [ih]
      have := scrape_page_total (fetch p) stats
      omega
  all_goals decide

/-- Claim C6, witness: the ascending-visit characterization at Scenario
B's batch, instantiated at page 55. -/
theorem C6_failure_never_aborts_witness :
    55 ∈ batch_pages scenario_batch ↔ 51 ≤ 55 ∧ 55 ≤ 60 :=
  (C6_failure_never_aborts.1 scenario_batch (by decide)).2 55

/-- Claim C7, counterexample.  With the shipped configuration
`{min_break: 15, max_break: 45}` a HIGH-risk break is drawn by
`random.uniform(min+60, max) = uniform(75, 45)`: the draw `t = 1/2` yields
60 minutes, which is below the claimed lower bound `minBreak + 60 = 75`
(and above `maxBreak = 45`). -/
theorem C7_counterexample :
    assess_risk_level stats_one_failure = "HIGH" ∧
    (0 : ℚ) ≤ 1 / 2 ∧ (1 / 2 : ℚ) ≤ 1 ∧
    calculate_optimal_break continuation_rules stats_one_failure (1 / 2) = 60 ∧
    continuation_rules.min_break_minutes + 60 = 75 ∧ (60 : ℚ) < 75 := by
  refine ⟨?_, by norm_num, by norm_num, ?_, ?_, by norm_num⟩
  · norm_num [assess_risk_level, calculate_success_rate, stats_one_failure, stats_init]
  · norm_num [calculate_optimal_break, assess_risk_level, calculate_success_rate,
      stats_one_failure, stats_init, continuation_rules, uniform]
    decide
  · norm_num [continuation_rules]

/-- Claim C7, amended: for every configuration and draw `t ∈ [0,1]` the
break lies in `[minBreak, minBreak+30]` for LOW risk and
`[minBreak+30, minBreak+60]` for MEDIUM; for HIGH it lies between
`min(minBreak+60, maxBreak)` and `max(minBreak+60, maxBreak)` — the
claimed `[minBreak+60, maxBreak]` only when `maxBreak ≥ minBreak+60`,
which the shipped configuration violates. -/
theorem C7_break_bounds (rules : ContinuationRules) (stats : Stats) (t : ℚ)
    (h0 : 0 ≤ t) (h1 : t ≤ 1) :
    (assess_risk_level stats = "LOW" →
      rules.min_break_minutes ≤ calculate_optimal_break rules stats t ∧
      calculate_optimal_break rules stats t ≤ rules.min_break_minutes + 30) ∧
    (assess_risk_level stats = "MEDIUM" →
      rules.min_break_minutes + 30 ≤ calculate_optimal_break rules stats t ∧
      calculate_optimal_break rules stats t ≤ rules.min_break_minutes + 60) ∧
    (assess_risk_level stats = "HIGH" →
      min (rules.min_break_minutes + 60) rules.max_break_minutes ≤
        calculate_optimal_break rules stats t ∧
      calculate_optimal_break rules stats t ≤
        max (rules.min_break_minutes + 60) rules.max_break_minutes) := by
  refine ⟨?_, ?_, ?_⟩ <;> intro h <;>
    simp only [calculate_optimal_break, uniform, h, reduceIte]
  · constructor <;> nlinarith [mul_nonneg h0 (by norm_num : (0:ℚ) ≤ 30)]
  · rw [if_neg (by decide : ¬("MEDIUM" : String) = "LOW")]
    constructor <;> nlinarith [mul_nonneg h0 (by norm_num : (0:ℚ) ≤ 30)]
  · rw [if_neg (by decide : ¬("HIGH" : String) = "LOW"),
      if_neg (by decide : ¬("HIGH" : String) = "MEDIUM")]
    rcases le_total (rules.min_break_minutes + 60) rules.max_break_minutes with hc | hc
    · rw [min_eq_left hc, max_eq_right hc]
      constructor <;>
        nlinarith [mul_nonneg h0 (sub_nonneg.mpr hc),
          mul_nonneg (sub_nonneg.mpr h1) (sub_nonneg.mpr hc)]
    · rw [min_eq_right hc, max_eq_left hc]
      constructor <;>
        nlinarith [mul_nonneg h0 (sub_nonneg.mpr hc),
          mul_nonneg (sub_nonneg.mpr h1) (sub_nonneg.mpr hc),
          mul_nonneg h0 (sub_nonneg.mpr h1)]

/-- Claim C7, witness for the amended bounds: LOW risk (fresh stats), draw
0, shipped configuration. -/
theorem C7_break_bounds_witness :
    continuation_rules.min_break_minutes ≤
      calculate_optimal_break continuation_rules stats_init 0 ∧
    calculate_optimal_break continuation_rules stats_init 0 ≤
      continuation_rules.min_break_minutes + 30 :=
  (C7_break_bounds continuation_rules stats_init 0 (by norm_num) (by norm_num)).1
    (by norm_num [assess_risk_level, calculate_success_rate, stats_init])

/-- Claim C10: for every completed batch the appended completion record's
`pages_scraped` and the amount added to `daily_pages_scraped` both equal
the full range size `endPage - startPage + 1`, whatever the fetcher's
failures — failed pages therefore count toward the daily limit. -/
theorem C10_full_range (fetch : Nat → FetchOutcome) (today now : String)
    (b : Batch) (stats : Stats) (store : List ListingRecord)
    (progress : ProgressState) (h : b.start ≤ b.«end») :
    ((run_batch fetch today now b stats store progress).2.2.completed_batches.getLast?).map
        (fun c => c.pages_scraped) = some (b.«end» - b.start + 1) ∧
    (run_batch fetch today now b stats store progress).2.2.daily_pages_scraped =
      progress.daily_pages_scraped + (b.«end» - b.start + 1) := by
  have hlen : (batch_pages b).length = b.«end» - b.start + 1 := by
    simp [batch_pages]
    omega
  constructor
  · simp [run_batch, List.getLast?_concat, hlen]
  · simp [run_batch, hlen]

/-- Claim C10, witness: a 5-page batch whose every page fails still books
5 pages in the completion record and adds 5 to `daily_pages_scraped`. -/
theorem C10_full_range_witness :
    ((run_batch fetch_fail "2026-10-12" "2026-10-12 09:00:00"
        { id := 1, start := 1, «end» := 5, name := "batch" }
        stats_init [] progress_yesterday).2.2.completed_batches.getLast?).map
      (fun c => c.pages_scraped) = some 5 ∧
    (run_batch fetch_fail "2026-10-12" "2026-10-12 09:00:00"
        { id := 1, start := 1, «end» := 5, name := "batch" }
        stats_init [] progress_yesterday).2.2.daily_pages_scraped =
      progress_yesterday.daily_pages_scraped + 5 :=
  C10_full_range fetch_fail "2026-10-12" "2026-10-12 09:00:00"
    { id := 1, start := 1, «end» := 5, name := "batch" }
    stats_init [] progress_yesterday (by decide)

/-- Claim C9: dataset merge is idempotent — merging the same record set
into the store twice yields the same final store contents as merging it
once, for every store contents and record set.  (After the first merge
every `url` of the batch is present in the store, so the second merge's
`~isin(existing_df['url'])` filter drops every row.) -/
theorem C9_merge_idempotent (S R : List ListingRecord) :
    save_batch_data R (save_batch_data R S) = save_batch_data R S := by
  by_cases hR : R = []
  · simp [save_batch_data, hR]
  · have hS1 : save_batch_data R S ≠ [] := save_batch_data_ne_nil R S hR
    have hunique : remove_duplicates R (save_batch_data R S) = [] := by
      unfold remove_duplicates
      rw [if_neg hS1, List.filter_eq_nil_iff]
      intro r hr
      have hrmem : r ∈ save_batch_data R S ++ R :=
        mem_of_mem_dropDuplicatesKeepLast hr
      have hin : urlMem r.url (save_batch_data R S) = true := by
        rcases List.mem_append.mp hrmem with hmem | hmem
        · exact (urlMem_iff_exists _ _).mpr ⟨r, hmem, rfl⟩
        · exact urlMem_save_batch_data R S r.url
            ((urlMem_iff_exists _ _).mpr ⟨r, hmem, rfl⟩)
      simp [hin]
    exact save_batch_data_eq_of_remove_nil R (save_batch_data R S) hR hunique

end Scrap
